import Mathlib

set_option maxRecDepth 4000

/-!
Verification of the Modbus → OPC UA bridge server (`server.js`, the
multi-device variant) against its natural-language specification.

The JavaScript source is shallowly embedded: JS runtime values that flow
through the polling/decoding paths are modelled by `JSVal`; the register
codec (`convertModbusData`, `getRegisterCount`), the connection routine
(`connectToDevice`), the per-device poll cycle (`readDeviceData`), the
HTTP handlers for adding/removing devices and for the value snapshot, and
the per-device `setInterval` timer are each translated into executable
Lean definitions.  Transport I/O (the modbus-serial client) is modelled by
an oracle `ReadFn` giving the outcome of each register/coil read, plus a
boolean connect outcome; a throw of the underlying library is an
`Except.error`.
-/

/-- A JavaScript runtime value as it occurs in the bridge's data paths:
integer-valued numbers, `NaN`, booleans, `undefined`, and IEEE-754 single
floats.  A float produced by `buffer.readFloatBE` is kept uninterpreted as
the pair of 16-bit big-endian words it was decoded from (`float32 hi lo`);
its numeric value is never needed by the properties below, only its
zero/NaN-ness (for JS truthiness). -/
inductive JSVal where
  | int : Int → JSVal
  | nan : JSVal
  | bool : Bool → JSVal
  | undef : JSVal
  | float32 : Nat → Nat → JSVal
  deriving Repr, DecidableEq

instance {ε α : Type} [DecidableEq ε] [DecidableEq α] : DecidableEq (Except ε α) := fun x y =>
  match x, y with
  | .ok a, .ok b =>
      if h : a = b then isTrue (by rw [h]) else isFalse (fun hc => h (Except.ok.inj hc))
  | .error a, .error b =>
      if h : a = b then isTrue (by rw [h]) else isFalse (fun hc => h (Except.error.inj hc))
  | .ok _, .error _ => isFalse (fun hc => Except.noConfusion hc)
  | .error _, .ok _ => isFalse (fun hc => Except.noConfusion hc)

/-- JS `ToNumber` restricted to the values above, with `none` standing for
`NaN`.  `undefined` coerces to `NaN`; booleans to 0/1.  A `float32` is
uninterpreted, so it maps to `none`; in the embedded code floats never
reach an arithmetic coercion site (register reads yield `int`s, coil reads
yield `bool`s), so this case is unreachable on real data flows. -/
def jsToNumber : JSVal → Option Int
  | .int n => some n
  | .nan => none
  | .bool b => some (cond b 1 0)
  | .undef => none
  | .float32 _ _ => none

/-- Reduce an integer to the signed 32-bit range, as JS bitwise operators
do (`ToInt32`): take the value mod 2^32 and subtract 2^32 when the result
is ≥ 2^31. -/
def toSigned32 (n : Int) : Int :=
  let m := n % 4294967296
  if m < 2147483648 then m else m - 4294967296

/-- JS `ToInt32` on a runtime value (`NaN`/`undefined` coerce to 0). -/
def toInt32 (v : JSVal) : Int :=
  match jsToNumber v with
  | some n => toSigned32 n
  | none => 0

/-- JS `v << 16`: `ToInt32` the operand, shift, and reinterpret the result
as a signed 32-bit integer.  This is the operator used by the source's
`(data[0] << 16) + data[1]`. -/
def jsShl16 (v : JSVal) : JSVal :=
  .int (toSigned32 (toInt32 v * 65536))

/-- JS `+` on two non-string values: `NaN` if either operand coerces to
`NaN`, otherwise the numeric sum. -/
def jsAdd (a b : JSVal) : JSVal :=
  match jsToNumber a, jsToNumber b with
  | some x, some y => .int (x + y)
  | _, _ => .nan

/-- JS `v - 65536` (the `int16` sign-extension arm). -/
def jsSub65536 (v : JSVal) : JSVal :=
  match jsToNumber v with
  | some x => .int (x - 65536)
  | none => .nan

/-- JS `v > k` for a numeric literal `k`: `false` whenever `v` coerces to
`NaN`. -/
def numGt (v : JSVal) (k : Int) : Bool :=
  match jsToNumber v with
  | some x => decide (k < x)
  | none => false

/-- JS truthiness.  For an uninterpreted `float32 hi lo` the value is falsy
exactly when its bit pattern is ±0 or a NaN (IEEE-754: zero pattern
`0x00000000`/`0x80000000`; NaN pattern has exponent bits all ones and a
nonzero mantissa). -/
def truthy : JSVal → Bool
  | .int n => n != 0
  | .nan => false
  | .bool b => b
  | .undef => false
  | .float32 hi lo =>
      !(((hi == 0 || hi == 32768) && lo == 0) ||
        ((hi / 128) % 256 == 255 && (hi % 128 != 0 || lo != 0)))

/-- `getRegisterCount(dataType)` from the source: 2 words for
`float`/`int32`/`uint32`, 1 for everything else. -/
def getRegisterCount (dataType : String) : Nat :=
  match dataType with
  | "float" => 2
  | "int32" => 2
  | "uint32" => 2
  | _ => 1

/-- One `Buffer.writeUInt16BE(value, …)` call: Node first coerces with
`value = +value` and then range-checks the coerced number against
`[0, 65535]`, throwing `ERR_OUT_OF_RANGE` only when the comparison
`value > max || value < min` holds.  So booleans are written as 0/1,
`NaN` (also the coercion of `undefined`) passes both comparisons and the
byte stores write 0, and an integer out of `[0, 65535]` throws.  The
result is the 16-bit word actually stored. -/
def word16OfWrite (v : JSVal) : Except Unit Nat :=
  match jsToNumber v with
  | some n => if 0 ≤ n ∧ n ≤ 65535 then .ok n.toNat else .error ()
  | none => .ok 0

/-- `convertModbusData(data, dataType)` from the source.  `data` is the
`data.data` array returned by modbus-serial (16-bit words for register
reads, booleans for coil/discrete reads); out-of-range indexing yields
`undefined` as in JS.  The `float` arm models two
`Buffer.writeUInt16BE(data[i], …)` calls followed by `readFloatBE`
(`word16OfWrite` per written word — a throw only for an out-of-range
number, never for a boolean, `NaN` or `undefined`); the IEEE float read
back is kept uninterpreted as `JSVal.float32` of the two stored words.
No other arm can throw. -/
def convertModbusData (data : List JSVal) (dataType : String) : Except Unit JSVal :=
  let d0 := (data.get? 0).getD .undef
  let d1 := (data.get? 1).getD .undef
  match dataType with
  | "float" =>
      match word16OfWrite d0, word16OfWrite d1 with
      | .ok hw, .ok lw => .ok (.float32 hw lw)
      | _, _ => .error ()
  | "int32" => .ok (jsAdd (jsShl16 d0) d1)
  | "uint32" => .ok (jsAdd (jsShl16 d0) d1)
  | "int16" => .ok (if numGt d0 32767 then jsSub65536 d0 else d0)
  | "uint16" => .ok d0
  | "boolean" => .ok (.bool (truthy d0))
  | _ => .ok d0

/-- A tag of a configured device (`tags` entries of `devices.json` /
`req.body`).  `currentValue` mirrors the mutable `tag.currentValue`
property; a tag never yet decoded has no such property, i.e. `undef`. -/
structure Tag where
  name : String
  registerType : String
  address : Nat
  dataType : String
  currentValue : JSVal
  deriving Repr, DecidableEq

/-- A configured device.  `connected` mirrors the mutable
`device.connected` flag (absent ≡ falsy ≡ `false`). -/
structure Device where
  id : String
  name : String
  type : String
  connected : Bool
  tags : List Tag
  deriving Repr, DecidableEq

/-- The transport oracle: outcome of one modbus-serial read call, keyed by
the function used (`"holding"`, `"input"`, `"coil"`, `"discrete"`), the
start address and the word/coil count.  `Except.error` models a rejected
promise (the `catch` path of the source). -/
def ReadFn : Type := String → Nat → Nat → Except Unit (List JSVal)

/-- The read request `readDeviceData` issues for a tag, from the
`if/else if` chain on `tag.registerType` (source lines 281-289): holding
and input registers request `getRegisterCount(tag.dataType)` words, coils
and discrete inputs request exactly 1 bit, and an unrecognized
`registerType` issues no request at all (the `data` variable stays
`undefined`). -/
def reqOf (t : Tag) : Option (String × Nat × Nat) :=
  match t.registerType with
  | "holding" => some ("holding", t.address, getRegisterCount t.dataType)
  | "input" => some ("input", t.address, getRegisterCount t.dataType)
  | "coil" => some ("coil", t.address, 1)
  | "discrete" => some ("discrete", t.address, 1)
  | _ => none

/-- Result of `connectToDevice` together with its side effects: the updated
device, the client port's open state, and whether a transport connect was
actually issued (used to state "no-op when already connected"). -/
structure ConnResult where
  success : Bool
  device : Device
  portOpen : Bool
  openAttempted : Bool
  deriving Repr, DecidableEq

/-- `connectToDevice(device)` from the source: returns `false` when no
client is registered for the device; returns `true` immediately when
`device.connected` is truthy; otherwise attempts the transport connect
(`connectTCP` / `connectRTUBuffered`, outcome given by the `connectOk`
oracle), setting `device.connected` and returning the boolean outcome.
When `device.type` is neither `"tcp"` nor `"rtu"` no transport call is
made, yet `setID` succeeds and the device is still marked connected.  The
`try/catch` of the source is what makes this a total function: a transport
failure becomes the `false` branch, never a thrown exception. -/
def connectToDevice (hasClient portOpen connectOk : Bool) (device : Device) : ConnResult :=
  if !hasClient then ⟨false, device, portOpen, false⟩
  else if device.connected then ⟨true, device, portOpen, false⟩
  else if device.type = "tcp" ∨ device.type = "rtu" then
    if connectOk then ⟨true, { device with connected := true }, true, true⟩
    else ⟨false, { device with connected := false }, portOpen, true⟩
  else ⟨true, { device with connected := true }, portOpen, false⟩

/-- Value-update and retraction notifications issued to the OPC UA address
space (the exposition sink). -/
inductive Event where
  | deviceRemoved : String → Event
  | tagValue : String → String → JSVal → Event
  deriving Repr, DecidableEq

/-- Accumulator of the `for (const tag of device.tags)` loop of
`readDeviceData`: the mutable `device.connected` flag, the client port's
open state, the tags processed so far, the names of tags for which a
client read call was actually issued, and the sink notifications
produced. -/
structure LoopState where
  connected : Bool
  portOpen : Bool
  doneTags : List Tag
  attempted : List String
  events : List Event
  deriving Repr, DecidableEq

/-- One iteration of the tag loop of `readDeviceData` (source lines
278-313).  A read on a closed client port rejects (modbus-serial's "Port
Not Open"), regardless of the oracle.  The `catch` arm sets
`device.connected = false` and closes the client (port closed; close
errors swallowed) but does NOT leave the loop.  A successful read and
decode stores the decoded value in `tag.currentValue` and, when an OPC UA
variable exists for the tag, pushes the value to it. -/
def processTag (readFn : ReadFn) (hasVar : String → Bool) (devId : String)
    (st : LoopState) (t : Tag) : LoopState :=
  match reqOf t with
  | none => { st with doneTags := st.doneTags ++ [t] }
  | some (k, a, c) =>
    match (if st.portOpen then readFn k a c else .error ()) with
    | .error _ =>
        { st with connected := false, portOpen := false,
                  doneTags := st.doneTags ++ [t],
                  attempted := st.attempted ++ [t.name] }
    | .ok l =>
      match convertModbusData l t.dataType with
      | .error _ =>
          { st with connected := false, portOpen := false,
                    doneTags := st.doneTags ++ [t],
                    attempted := st.attempted ++ [t.name] }
      | .ok v =>
          { st with doneTags := st.doneTags ++ [{ t with currentValue := v }],
                    attempted := st.attempted ++ [t.name],
                    events := st.events ++
                      (if hasVar t.name then [Event.tagValue devId t.name v] else []) }

/-- The whole tag loop of `readDeviceData`. -/
def processTags (readFn : ReadFn) (hasVar : String → Bool) (devId : String) :
    LoopState → List Tag → LoopState
  | st, [] => st
  | st, t :: ts => processTags readFn hasVar devId (processTag readFn hasVar devId st t) ts

/-- What one processed tag looks like after its loop iteration, as a
function of the transport oracle: updated `currentValue` on a successful
read+decode, unchanged otherwise (assuming the port is open when its read
is issued). -/
def tagStep (readFn : ReadFn) (t : Tag) : Tag :=
  match reqOf t with
  | none => t
  | some (k, a, c) =>
    match readFn k a c with
    | .error _ => t
    | .ok l =>
      match convertModbusData l t.dataType with
      | .error _ => t
      | .ok v => { t with currentValue := v }

/-- Whether a tag's read request is recognized, succeeds under the oracle
and decodes without throwing. -/
def tagReadOk (readFn : ReadFn) (t : Tag) : Bool :=
  match reqOf t with
  | none => false
  | some (k, a, c) =>
    match readFn k a c with
    | .error _ => false
    | .ok l =>
      match convertModbusData l t.dataType with
      | .error _ => false
      | .ok _ => true

/-- Result of one `readDeviceData` invocation. -/
structure ReadResult where
  device : Device
  portOpen : Bool
  attempted : List String
  events : List Event
  deriving Repr, DecidableEq

/-- `readDeviceData(device)` from the source (lines 269-314): return
immediately when no client is registered; if the device is not connected,
try `connectToDevice` and return on failure; otherwise run the tag loop. -/
def readDeviceData (hasClient portOpen connectOk : Bool) (readFn : ReadFn)
    (hasVar : String → Bool) (device : Device) : ReadResult :=
  if !hasClient then ⟨device, portOpen, [], []⟩
  else
    let c : ConnResult :=
      if device.connected then ⟨true, device, portOpen, false⟩
      else connectToDevice true portOpen connectOk device
    if !c.success then ⟨c.device, c.portOpen, [], []⟩
    else
      let st := processTags readFn hasVar c.device.id
        ⟨c.device.connected, c.portOpen, [], [], []⟩ c.device.tags
      ⟨{ c.device with connected := st.connected, tags := st.doneTags },
       st.portOpen, st.attempted, st.events⟩

/-- The process-wide mutable state of the server: the `devices` array, the
key sets of the `modbusClients` and `opcuaVariables` maps, the set of
client ids whose transport port is currently open, and the device ids for
which `startDevicePolling` has installed a `setInterval` timer (the source
never calls `clearInterval`, and keeps no handle to do so). -/
structure SysState where
  devices : List Device
  clients : List String
  openPorts : List String
  opcuaDevs : List String
  intervals : List String
  deriving Repr, DecidableEq

/-- `Map.set` on a key set: add the id if absent (setting an existing key
replaces its value, leaving the key set unchanged). -/
def insertOnce (l : List String) (x : String) : List String :=
  if l.contains x then l else l ++ [x]

/-- `devices.splice(index, 1)` where `index` is the first position whose
device has the given id: remove the first matching element. -/
def spliceFirst (l : List Device) (id : String) : List Device :=
  match l with
  | [] => []
  | d :: ds => if d.id = id then ds else d :: spliceFirst ds id

/-- A `POST /api/devices` request body.  `id`/`tags` are `none` when the
field is absent; a `name`/`type` field that is absent or the empty string
is falsy either way and is modelled as `""`. -/
structure NewDevice where
  id : Option String
  name : String
  type : String
  tags : Option (List Tag)
  deriving Repr, DecidableEq

/-- The `POST /api/devices` handler (source lines 61-85) followed by
`initializeDevice`: validation rejects (HTTP 400, `Except.error`) exactly
when `name` or `type` is falsy or `tags` is absent; otherwise the id is
taken from the body (falling back to `Date.now().toString()`, the `now`
argument, when absent or falsy), the device is pushed onto `devices`,
OPC UA variables are created (the `opcuaVariables` map gains the id only
when the tag list is nonempty, since the map entry is created inside
`tags.forEach`), a modbus client is registered, and `startDevicePolling`
installs one more interval timer for the device. -/
def addDevice (s : SysState) (now : String) (nd : NewDevice) : Except Unit (SysState × Device) :=
  if nd.name = "" ∨ nd.type = "" ∨ nd.tags = none then .error ()
  else
    let ts := nd.tags.getD []
    let i := if nd.id.getD "" = "" then now else nd.id.getD ""
    let d : Device := ⟨i, nd.name, nd.type, false, ts⟩
    .ok ({ s with
            devices := s.devices ++ [d],
            opcuaDevs := if ts.isEmpty then s.opcuaDevs else insertOnce s.opcuaDevs i,
            clients := insertOnce s.clients i,
            intervals := s.intervals ++ [i] }, d)

/-- The `DELETE /api/devices/:id` handler (source lines 87-113): 404
(`Except.error`) when no device has the id; otherwise
`removeDeviceVariables` retracts the device's OPC UA variables (one
retraction notification, issued only when the `opcuaVariables` map has the
id), the modbus client is closed and dropped, and the first matching
element is spliced out of `devices`.  The device's `setInterval` timer is
not touched — `intervals` is returned unchanged. -/
def removeDevice (s : SysState) (id : String) : Except Unit (SysState × List Event) :=
  if s.devices.any (fun d => d.id = id) then
    .ok ({ s with
            devices := spliceFirst s.devices id,
            clients := s.clients.filter (· ≠ id),
            openPorts := s.openPorts.filter (· ≠ id),
            opcuaDevs := s.opcuaDevs.filter (· ≠ id) },
          if s.opcuaDevs.contains id then [Event.deviceRemoved id] else [])
  else .error ()

/-- One firing of a device's `setInterval` callback
(`() => readDeviceData(device)`).  The callback closed over the device
OBJECT, so it runs even after the device was removed from the registry;
`dev` is that captured object.  The resulting mutations are written back:
the `devices` array entry aliasing the object (identified by id — exact
whenever the registry holds at most one device with that id), and the
client port's open state.  Returns the updated system state, the updated
captured object, and the sink notifications of the cycle. -/
def tick (connectOk : Bool) (readFn : ReadFn) (s : SysState) (dev : Device) :
    SysState × Device × List Event :=
  let r := readDeviceData (s.clients.contains dev.id) (s.openPorts.contains dev.id)
    connectOk readFn (fun _ => s.opcuaDevs.contains dev.id) dev
  ({ s with
      devices := s.devices.map (fun d => if d.id = dev.id then r.device else d),
      openPorts := if r.portOpen then insertOnce s.openPorts dev.id
                   else s.openPorts.filter (· ≠ dev.id) },
   r.device, r.events)

/-- `n` consecutive firings of one device's interval timer, threading the
system state and the captured device object and concatenating the emitted
notifications. -/
def ticksFor (connectOk : Bool) (readFn : ReadFn) :
    Nat → SysState → Device → SysState × Device × List Event
  | 0, s, dev => (s, dev, [])
  | n + 1, s, dev =>
      let r1 := tick connectOk readFn s dev
      let r2 := ticksFor connectOk readFn n r1.1 r1.2.1
      (r2.1, r2.2.1, r1.2.2 ++ r2.2.2)

/-- The `GET /api/values` handler (source lines 115-127): for every device
an entry keyed by its id carrying its name and, per tag,
`tag.currentValue || 0` — the stored value when truthy, the number `0`
otherwise. -/
def valuesSnapshot (devices : List Device) : List (String × String × List (String × JSVal)) :=
  devices.map (fun d =>
    (d.id, d.name,
     d.tags.map (fun t => (t.name, if truthy t.currentValue then t.currentValue else JSVal.int 0))))

theorem toSigned32_of_range (n : Int) (h0 : 0 ≤ n) (h1 : n < 4294967296) :
    toSigned32 n = if n < 2147483648 then n else n - 4294967296 := by
  unfold toSigned32
  rw [Int.emod_eq_of_lt h0 h1]

theorem toSigned32_small (n : Int) (h0 : 0 ≤ n) (h1 : n < 2147483648) : toSigned32 n = n := by
  rw [toSigned32_of_range n h0 (by omega), if_pos h1]

/-- Decoding two register words as `int32`/`uint32` is, in the source,
literally the same expression `(data[0] << 16) + data[1]`. -/
theorem convert32_eq (a b : Nat) :
    convertModbusData [.int a, .int b] "uint32" = .ok (jsAdd (jsShl16 (.int a)) (.int b)) ∧
    convertModbusData [.int a, .int b] "int32" = .ok (jsAdd (jsShl16 (.int a)) (.int b)) :=
  ⟨rfl, rfl⟩

theorem shl16_add (a b : Nat) (ha : a ≤ 65535) (hb : b ≤ 65535) :
    jsAdd (jsShl16 (.int a)) (.int b) = .int (toSigned32 ((a : Int) * 65536 + b)) := by
  have h1 : toInt32 (.int a) = (a : Int) := by
    show toSigned32 (a : Int) = (a : Int)
    exact toSigned32_small _ (by omega) (by omega)
  have e1 : jsShl16 (.int a) = .int (toSigned32 ((a : Int) * 65536)) := by
    unfold jsShl16; rw [h1]
  rw [e1]
  show JSVal.int (toSigned32 ((a : Int) * 65536) + (b : Int)) = _
  refine congrArg JSVal.int ?_
  rw [toSigned32_of_range _ (by omega) (by omega),
      toSigned32_of_range _ (by omega) (by omega)]
  split <;> split <;> omega

/-- C5 (corrected): in the source both `int32` and `uint32` decode as the
JS expression `(data[0] << 16) + data[1]`, whose `<<` is a SIGNED 32-bit
operation — so both data types yield the signed 32-bit interpretation of
the combined word pair (value minus 2^32 whenever `words[0] ≥ 32768`),
and `uint32` does NOT yield the non-negative combination the claim
states. -/
theorem int32_uint32_decode_signed (a b : Nat) (ha : a ≤ 65535) (hb : b ≤ 65535) :
    convertModbusData [.int a, .int b] "uint32"
      = .ok (.int (if a < 32768 then (a : Int) * 65536 + b
                   else (a : Int) * 65536 + b - 4294967296)) ∧
    convertModbusData [.int a, .int b] "int32"
      = .ok (.int (if a < 32768 then (a : Int) * 65536 + b
                   else (a : Int) * 65536 + b - 4294967296)) := by
  have key : jsAdd (jsShl16 (.int a)) (.int b)
      = .int (if a < 32768 then (a : Int) * 65536 + b
              else (a : Int) * 65536 + b - 4294967296) := by
    rw [shl16_add a b ha hb, toSigned32_of_range _ (by omega) (by omega)]
    by_cases h : a < 32768
    · rw [if_pos (by omega), if_pos h]
    · rw [if_neg (by omega), if_neg h]
  exact ⟨(convert32_eq a b).1.trans (by rw [key]), (convert32_eq a b).2.trans (by rw [key])⟩

/-- C5 witness: at words `[32768, 0]` both decoders produce the
sign-extended value `-2147483648`. -/
theorem int32_uint32_decode_signed_witness :
    convertModbusData [.int 32768, .int 0] "uint32"
      = .ok (.int (if 32768 < 32768 then ((32768 : Nat) : Int) * 65536 + ((0 : Nat) : Int)
                   else ((32768 : Nat) : Int) * 65536 + ((0 : Nat) : Int) - 4294967296)) ∧
    convertModbusData [.int 32768, .int 0] "int32"
      = .ok (.int (if 32768 < 32768 then ((32768 : Nat) : Int) * 65536 + ((0 : Nat) : Int)
                   else ((32768 : Nat) : Int) * 65536 + ((0 : Nat) : Int) - 4294967296)) :=
  int32_uint32_decode_signed 32768 0 (by decide) (by decide)


/-- C5 counterexample: at words `[32768, 0]` the `uint32` decode is
`-2147483648`, not the claimed non-negative `32768 * 65536 + 0 =
2147483648`. -/
theorem uint32_decode_negative_counterexample :
    convertModbusData [.int 32768, .int 0] "uint32" = .ok (.int (-2147483648)) ∧
    convertModbusData [.int 32768, .int 0] "uint32" ≠ .ok (.int 2147483648) := by
  constructor <;> decide

/-- C8: `int16` decoding returns the raw word below 32768 and sign-extends
(subtracts 65536) from 32768 up; `uint16` returns the raw word unchanged;
the boundary words 32767, 32768, 0 and 65535 decode to 32767, -32768, 0
and 65535. -/
theorem int16_uint16_decode (w : Nat) (_hw : w ≤ 65535) :
    convertModbusData [.int w] "int16"
      = .ok (.int (if w < 32768 then (w : Int) else (w : Int) - 65536)) ∧
    convertModbusData [.int w] "uint16" = .ok (.int w) ∧
    convertModbusData [.int 32767] "int16" = .ok (.int 32767) ∧
    convertModbusData [.int 32768] "int16" = .ok (.int (-32768)) ∧
    convertModbusData [.int 0] "int16" = .ok (.int 0) ∧
    convertModbusData [.int 65535] "uint16" = .ok (.int 65535) := by
  refine ⟨?_, rfl, by decide, by decide, by decide, by decide⟩
  have h1 : convertModbusData [.int w] "int16"
      = .ok (if numGt (.int w) 32767 then jsSub65536 (.int w) else .int w) := rfl
  rw [h1]
  by_cases hlt : w < 32768
  · have hgt : numGt (.int w) 32767 = false := by
      simp only [numGt, jsToNumber, decide_eq_false_iff_not, not_lt]
      exact_mod_cast Nat.lt_succ_iff.mp hlt
    rw [hgt, if_neg (by simp), if_pos hlt]
  · have hgt : numGt (.int w) 32767 = true := by
      simp only [numGt, jsToNumber, decide_eq_true_eq]
      exact_mod_cast Nat.lt_of_lt_of_le (by omega) (Nat.le_of_not_lt hlt)
    rw [hgt, if_pos rfl, if_neg hlt]
    unfold jsSub65536 jsToNumber
    rfl

/-- C8 witness: the theorem applied at the boundary word 32768. -/
theorem int16_uint16_decode_witness :
    convertModbusData [.int 32768] "int16"
      = .ok (.int (if 32768 < 32768 then ((32768 : Nat) : Int) else ((32768 : Nat) : Int) - 65536)) ∧
    convertModbusData [.int 32768] "uint16" = .ok (.int 32768) ∧
    convertModbusData [.int 32767] "int16" = .ok (.int 32767) ∧
    convertModbusData [.int 32768] "int16" = .ok (.int (-32768)) ∧
    convertModbusData [.int 0] "int16" = .ok (.int 0) ∧
    convertModbusData [.int 65535] "uint16" = .ok (.int 65535) :=
  int16_uint16_decode 32768 (by decide)

/-- C9: `getRegisterCount` returns 2 for the two-word data types (`float`,
the config-schema name of the spec's `float32`, plus `int32`/`uint32`) and
1 for `int16`/`uint16`/`boolean`; and the request a poll cycle issues for
a holding- or input-register tag (`reqOf`, the request computed at source
lines 281-284) asks for exactly `getRegisterCount(tag.dataType)` words. -/
theorem registerCount_spec :
    getRegisterCount "float" = 2 ∧ getRegisterCount "int32" = 2 ∧
    getRegisterCount "uint32" = 2 ∧ getRegisterCount "int16" = 1 ∧
    getRegisterCount "uint16" = 1 ∧ getRegisterCount "boolean" = 1 ∧
    (∀ (nm : String) (addr : Nat) (dt : String) (v : JSVal),
      reqOf ⟨nm, "holding", addr, dt, v⟩ = some ("holding", addr, getRegisterCount dt) ∧
      reqOf ⟨nm, "input", addr, dt, v⟩ = some ("input", addr, getRegisterCount dt)) :=
  ⟨rfl, rfl, rfl, rfl, rfl, rfl, fun _ _ _ _ => ⟨rfl, rfl⟩⟩

/-- C1 (corrected): a coil/discrete read fetches a single bit, but the
decode is NOT forced to boolean — `readDeviceData` passes the fetched data
through `convertModbusData` keyed on the tag's declared `dataType`.  The
stored value is the boolean of the fetched bit for `dataType` `boolean`
(via `Boolean(data[0])`) and — by pass-through of the raw JS boolean — for
`int16` and `uint16`; but for `int32`/`uint32` the stored value is the
NUMBER `(bit << 16) + data[1]`, and for `float` the bit is coerced by
`Buffer.writeUInt16BE` (`true` → 1, `false` → 0) and the stored value is
the resulting (denormal) IEEE-754 float — a float, not a boolean.
modbus-serial returns coil data as an array of booleans, so the list head
is `JSVal.bool`. -/
theorem coil_decode_depends_on_dataType :
    (∀ (nm : String) (addr : Nat) (dt : String) (v : JSVal),
      reqOf ⟨nm, "coil", addr, dt, v⟩ = some ("coil", addr, 1) ∧
      reqOf ⟨nm, "discrete", addr, dt, v⟩ = some ("discrete", addr, 1)) ∧
    (∀ (b : Bool) (rest : List JSVal),
      convertModbusData (.bool b :: rest) "boolean" = .ok (.bool b) ∧
      convertModbusData (.bool b :: rest) "int16" = .ok (.bool b) ∧
      convertModbusData (.bool b :: rest) "uint16" = .ok (.bool b)) ∧
    (∀ (b b2 : Bool) (rest : List JSVal),
      convertModbusData (.bool b :: .bool b2 :: rest) "uint32"
        = .ok (.int (cond b 65536 0 + cond b2 1 0)) ∧
      convertModbusData (.bool b :: .bool b2 :: rest) "int32"
        = .ok (.int (cond b 65536 0 + cond b2 1 0)) ∧
      convertModbusData (.bool b :: .bool b2 :: rest) "float"
        = .ok (.float32 (cond b 1 0) (cond b2 1 0))) ∧
    ((JSVal.int 65536 ≠ JSVal.bool true) ∧ (JSVal.int 65536 ≠ JSVal.bool false) ∧
     (∀ (hw lw : Nat) (b : Bool), JSVal.float32 hw lw ≠ JSVal.bool b)) := by
  refine ⟨fun _ _ _ _ => ⟨rfl, rfl⟩, fun b rest => ?_, fun b b2 rest => ?_,
    by decide, by decide, fun hw lw b hc => JSVal.noConfusion hc⟩
  · cases b <;> exact ⟨rfl, rfl, rfl⟩
  · cases b <;> cases b2 <;> exact ⟨rfl, rfl, rfl⟩

/-- C1 counterexample device: a single coil tag declaring `dataType`
`uint32`. -/
def coilDevC1 : Device := ⟨"d1", "dev", "tcp", true, [⟨"c1", "coil", 7, "uint32", .undef⟩]⟩

/-- C1 counterexample transport: the coil read returns one set bit (padded
to a byte of booleans, as modbus-serial does for FC1/FC2 responses). -/
def readFnC1 : ReadFn := fun k _ _ =>
  if k = "coil" then
    .ok [.bool true, .bool false, .bool false, .bool false,
         .bool false, .bool false, .bool false, .bool false]
  else .error ()

/-- C1 counterexample: after a successful poll cycle on a coil tag whose
`dataType` is `uint32`, the value written to `currentValue` is the number
65536 — not the boolean of the fetched bit (`true`), contradicting
"decodes directly to boolean regardless of dataType". -/
theorem coil_uint32_stores_number_counterexample :
    (readDeviceData true true true readFnC1 (fun _ => true) coilDevC1).device.tags.map
      (fun t => t.currentValue) = [JSVal.int 65536] ∧
    JSVal.int 65536 ≠ JSVal.bool true ∧ JSVal.int 65536 ≠ JSVal.bool false := by
  refine ⟨by decide, by decide, by decide⟩

/-- C10 (implicit): in the `GET /api/values` snapshot every tag is
reported as `currentValue || 0`: whenever the stored value is falsy — a
tag never decoded (`undefined`), the boolean `false`, or the number 0 —
the report is the number 0. -/
theorem snapshot_falsy_reports_zero (ds : List Device) (d : Device) (t : Tag)
    (hd : d ∈ ds) (ht : t ∈ d.tags) (hf : truthy t.currentValue = false) :
    (d.id, d.name,
      d.tags.map (fun u => (u.name, if truthy u.currentValue then u.currentValue else JSVal.int 0)))
      ∈ valuesSnapshot ds ∧
    (t.name, JSVal.int 0)
      ∈ d.tags.map (fun u => (u.name, if truthy u.currentValue then u.currentValue else JSVal.int 0)) ∧
    truthy JSVal.undef = false ∧ truthy (JSVal.bool false) = false ∧
    truthy (JSVal.int 0) = false := by
  refine ⟨List.mem_map_of_mem _ hd, ?_, rfl, rfl, by decide⟩
  have he : (t.name, JSVal.int 0)
      = (fun u : Tag => (u.name, if truthy u.currentValue then u.currentValue else JSVal.int 0)) t := by
    simp [hf]
  rw [he]
  exact List.mem_map_of_mem _ ht

/-- C10 witness device list: one device with an undecoded tag. -/
def devsC10 : List Device := [⟨"d1", "n", "tcp", false, [⟨"t1", "holding", 0, "uint16", .undef⟩]⟩]

/-- C10 witness: the theorem applied to a concrete snapshot with a
never-decoded tag. -/
theorem snapshot_falsy_reports_zero_witness :
    ("d1", "n",
      ([⟨"t1", "holding", 0, "uint16", JSVal.undef⟩] : List Tag).map
        (fun u => (u.name, if truthy u.currentValue then u.currentValue else JSVal.int 0)))
      ∈ valuesSnapshot devsC10 ∧
    ("t1", JSVal.int 0)
      ∈ ([⟨"t1", "holding", 0, "uint16", JSVal.undef⟩] : List Tag).map
        (fun u => (u.name, if truthy u.currentValue then u.currentValue else JSVal.int 0)) ∧
    truthy JSVal.undef = false ∧ truthy (JSVal.bool false) = false ∧
    truthy (JSVal.int 0) = false :=
  snapshot_falsy_reports_zero devsC10
    ⟨"d1", "n", "tcp", false, [⟨"t1", "holding", 0, "uint16", JSVal.undef⟩]⟩
    ⟨"t1", "holding", 0, "uint16", JSVal.undef⟩
    (by decide) (by decide) (by decide)

/-- C3 (corrected): the `POST /api/devices` validation checks only that
`name`, `type` and `tags` are present (and `tags` is an array); it never
looks at existing ids, so a device whose id is already registered is
accepted and appended, leaving the registry with two devices of the same
id. -/
theorem addDevice_accepts_duplicate_id (s : SysState) (now : String) (nd : NewDevice)
    (i : String) (ts : List Tag)
    (hid : nd.id = some i) (hnz : i ≠ "")
    (hdup : i ∈ s.devices.map (fun d => d.id))
    (hn : nd.name ≠ "") (hty : nd.type ≠ "") (htags : nd.tags = some ts) :
    ∃ p : SysState × Device, addDevice s now nd = .ok p ∧
      p.1.devices = s.devices ++ [p.2] ∧ p.2.id = i ∧
      ((p.1.devices.map (fun d => d.id)).count i ≥ 2) := by
  refine ⟨({ s with
      devices := s.devices ++ [⟨i, nd.name, nd.type, false, ts⟩],
      opcuaDevs := if ts.isEmpty then s.opcuaDevs else insertOnce s.opcuaDevs i,
      clients := insertOnce s.clients i,
      intervals := s.intervals ++ [i] }, ⟨i, nd.name, nd.type, false, ts⟩), ?_, rfl, rfl, ?_⟩
  · unfold addDevice
    rw [if_neg (by simp [hn, hty, htags])]
    rw [htags, hid]
    simp only [Option.getD_some]
    rw [if_neg hnz]
  · have h2 : 0 < (s.devices.map (fun d => d.id)).count i := List.count_pos_iff.mpr hdup
    have h3 : ((s.devices ++ [(⟨i, nd.name, nd.type, false, ts⟩ : Device)]).map
        (fun d => d.id)).count i = (s.devices.map (fun d => d.id)).count i + 1 := by
      simp [List.map_append, List.count_append]
    simp only [h3]
    omega

/-- C3 counterexample registry: one device with id `"1"`. -/
def regC3 : SysState :=
  ⟨[⟨"1", "old", "tcp", false, [⟨"t", "holding", 0, "uint16", .undef⟩]⟩], ["1"], [], ["1"], ["1"]⟩

/-- C3 counterexample request: a well-formed device re-using id `"1"`. -/
def bodyC3 : NewDevice := ⟨some "1", "new", "tcp", some [⟨"t", "holding", 0, "uint16", .undef⟩]⟩

/-- C3 counterexample: adding a device whose id `"1"` is already present
SUCCEEDS (no ValidationError) and changes the registry — it then holds two
devices with id `"1"`. -/
theorem addDevice_duplicate_id_counterexample :
    (∃ p : SysState × Device, addDevice regC3 "999" bodyC3 = .ok p) ∧
    (match addDevice regC3 "999" bodyC3 with
     | .ok p => p.1.devices.map (fun d => d.id)
     | .error _ => []) = ["1", "1"] := by
  refine ⟨⟨(⟨{ regC3 with
      devices := regC3.devices ++ [⟨"1", "new", "tcp", false, [⟨"t", "holding", 0, "uint16", .undef⟩]⟩],
      opcuaDevs := insertOnce regC3.opcuaDevs "1",
      clients := insertOnce regC3.clients "1",
      intervals := regC3.intervals ++ ["1"] },
      ⟨"1", "new", "tcp", false, [⟨"t", "holding", 0, "uint16", .undef⟩]⟩⟩ : SysState × Device),
      by decide⟩, by decide⟩

/-- C3 witness: the theorem applied to a registry already holding id `"1"`
and a request re-using that id. -/
theorem addDevice_accepts_duplicate_id_witness :
    ∃ p : SysState × Device, addDevice regC3 "999" bodyC3 = .ok p ∧
      p.1.devices = regC3.devices ++ [p.2] ∧ p.2.id = "1" ∧
      ((p.1.devices.map (fun d => d.id)).count "1" ≥ 2) :=
  addDevice_accepts_duplicate_id regC3 "999" bodyC3 "1"
    [⟨"t", "holding", 0, "uint16", .undef⟩]
    rfl (by decide) (by decide) (by decide) (by decide) rfl

/-- C6 (corrected): the `POST /api/devices` validation never inspects the
CONTENTS of the tag list — only that the `tags` field is present and an
array.  A device with an empty tag list, or with two tags sharing a name,
is accepted and appended to the registry (no ValidationError). -/
theorem addDevice_ignores_tag_contents (s : SysState) (now : String) (nd : NewDevice)
    (ts : List Tag)
    (hn : nd.name ≠ "") (hty : nd.type ≠ "") (htags : nd.tags = some ts) :
    ∃ p : SysState × Device, addDevice s now nd = .ok p ∧
      p.1.devices = s.devices ++ [p.2] ∧ p.2.tags = ts := by
  refine ⟨({ s with
      devices := s.devices ++ [⟨if nd.id.getD "" = "" then now else nd.id.getD "",
        nd.name, nd.type, false, ts⟩],
      opcuaDevs := if ts.isEmpty then s.opcuaDevs
        else insertOnce s.opcuaDevs (if nd.id.getD "" = "" then now else nd.id.getD ""),
      clients := insertOnce s.clients (if nd.id.getD "" = "" then now else nd.id.getD ""),
      intervals := s.intervals ++ [if nd.id.getD "" = "" then now else nd.id.getD ""] },
      ⟨if nd.id.getD "" = "" then now else nd.id.getD "", nd.name, nd.type, false, ts⟩),
      ?_, rfl, rfl⟩
  unfold addDevice
  rw [if_neg (by simp [hn, hty, htags])]
  rw [htags]
  rfl

/-- C6 counterexample registry: an initially empty registry. -/
def regC6 : SysState := ⟨[], [], [], [], []⟩

/-- C6 counterexample request with an empty tag list. -/
def bodyC6empty : NewDevice := ⟨some "7", "emptyTags", "tcp", some []⟩

/-- C6 counterexample request with two tags sharing the name `"t"`. -/
def bodyC6dup : NewDevice :=
  ⟨some "8", "dupTags", "tcp",
   some [⟨"t", "holding", 0, "uint16", .undef⟩, ⟨"t", "input", 1, "int16", .undef⟩]⟩

/-- C6 counterexample: a device with an empty tag list is accepted into
the registry, and so is a device with two tags sharing a name — neither
fails with a ValidationError. -/
theorem addDevice_empty_or_dup_tags_counterexample :
    (match addDevice regC6 "100" bodyC6empty with
     | .ok p => p.1.devices.map (fun d => d.id)
     | .error _ => []) = ["7"] ∧
    (match addDevice regC6 "100" bodyC6dup with
     | .ok p => p.1.devices.map (fun d => (d.id, d.tags.map (fun t => t.name)))
     | .error _ => []) = [("8", ["t", "t"])] := by
  exact ⟨by decide, by decide⟩

/-- C6 witness: the theorem applied to the empty-tag-list request. -/
theorem addDevice_ignores_tag_contents_witness :
    ∃ p : SysState × Device, addDevice regC6 "100" bodyC6empty = .ok p ∧
      p.1.devices = regC6.devices ++ [p.2] ∧ p.2.tags = [] :=
  addDevice_ignores_tag_contents regC6 "100" bodyC6empty []
    (by decide) (by decide) rfl

/-- C7: `connectToDevice` never throws past its boundary — the transport
calls sit in a `try/catch`, which is what lets it be embedded as a TOTAL
function into `ConnResult` with a boolean `success`.  For every device
with a registered client: if the device is already connected it returns
`true` immediately, unchanged, without touching the transport
(`openAttempted = false`); if it is disconnected and the transport connect
fails, it returns `false` and leaves `device.connected = false`. -/
theorem connectToDevice_boundary (portOpen connectOk : Bool) (device : Device) :
    (device.connected = true →
      connectToDevice true portOpen connectOk device
        = ⟨true, device, portOpen, false⟩) ∧
    (device.connected = false → (device.type = "tcp" ∨ device.type = "rtu") →
      connectOk = false →
      (connectToDevice true portOpen connectOk device).success = false ∧
      (connectToDevice true portOpen connectOk device).device.connected = false) := by
  constructor
  · intro hc
    unfold connectToDevice
    rw [hc]
    rfl
  · intro hc hty hok
    unfold connectToDevice
    rw [hc, hok]
    simp [hty]

/-- C7 witness devices: one already connected, one disconnected. -/
def devConnC7 : Device := ⟨"a", "A", "tcp", true, []⟩

/-- C7 witness: the theorem applied to a connected device (immediate
no-op success) and to a disconnected TCP device whose connect fails. -/
theorem connectToDevice_boundary_witness :
    (connectToDevice true true false devConnC7 = ⟨true, devConnC7, true, false⟩) ∧
    ((connectToDevice true true false (⟨"b", "B", "tcp", false, []⟩ : Device)).success = false ∧
     (connectToDevice true true false (⟨"b", "B", "tcp", false, []⟩ : Device)).device.connected
       = false) :=
  ⟨(connectToDevice_boundary true false devConnC7).1 rfl,
   (connectToDevice_boundary true false ⟨"b", "B", "tcp", false, []⟩).2 rfl (Or.inl rfl) rfl⟩

theorem filter_self_of_all {α : Type} (p : α → Bool) (l : List α)
    (h : ∀ x ∈ l, p x = true) : l.filter p = l := by
  induction l with
  | nil => rfl
  | cons x xs ih =>
      rw [List.filter_cons, if_pos (h x (List.mem_cons_self x xs))]
      rw [ih (fun y hy => h y (List.mem_cons_of_mem x hy))]

theorem processTags_cons (readFn : ReadFn) (hasVar : String → Bool) (devId : String)
    (st : LoopState) (t : Tag) (ts : List Tag) :
    processTags readFn hasVar devId st (t :: ts)
      = processTags readFn hasVar devId (processTag readFn hasVar devId st t) ts := rfl


theorem processTags_append (readFn : ReadFn) (hasVar : String → Bool) (devId : String)
    (l1 l2 : List Tag) :
    ∀ st : LoopState, processTags readFn hasVar devId st (l1 ++ l2)
      = processTags readFn hasVar devId (processTags readFn hasVar devId st l1) l2 := by
  induction l1 with
  | nil => intro st; rfl
  | cons t ts ih =>
      intro st
      rw [List.cons_append, processTags_cons, processTags_cons]
      exact ih _

theorem tagReadOk_elim (readFn : ReadFn) (t : Tag) (h : tagReadOk readFn t = true) :
    ∃ k a c l v, reqOf t = some (k, a, c) ∧ readFn k a c = .ok l ∧
      convertModbusData l t.dataType = .ok v := by
  unfold tagReadOk at h
  split at h
  · simp at h
  · split at h
    · simp at h
    · split at h
      · simp at h
      · exact ⟨_, _, _, _, _, by assumption, by assumption, by assumption⟩

theorem processTag_ok (readFn : ReadFn) (hasVar : String → Bool) (devId : String)
    (st : LoopState) (t : Tag) (k : String) (a c : Nat) (l : List JSVal) (v : JSVal)
    (hreq : reqOf t = some (k, a, c)) (hread : readFn k a c = .ok l)
    (hconv : convertModbusData l t.dataType = .ok v) (hpo : st.portOpen = true) :
    (processTag readFn hasVar devId st t).connected = st.connected ∧
    (processTag readFn hasVar devId st t).portOpen = st.portOpen ∧
    (processTag readFn hasVar devId st t).doneTags = st.doneTags ++ [tagStep readFn t] ∧
    (processTag readFn hasVar devId st t).attempted = st.attempted ++ [t.name] := by
  have hts : tagStep readFn t = { t with currentValue := v } := by
    unfold tagStep
    rw [hreq]
    simp [hread, hconv]
  have hpt : processTag readFn hasVar devId st t
      = { st with doneTags := st.doneTags ++ [{ t with currentValue := v }],
                  attempted := st.attempted ++ [t.name],
                  events := st.events ++
                    (if hasVar t.name then [Event.tagValue devId t.name v] else []) } := by
    unfold processTag
    rw [hreq, hpo]
    simp [hread, hconv]
  rw [hpt, hts]
  exact ⟨rfl, rfl, rfl, rfl⟩

theorem processTags_ok (readFn : ReadFn) (hasVar : String → Bool) (devId : String)
    (pre : List Tag) :
    ∀ st : LoopState, st.portOpen = true → (∀ t ∈ pre, tagReadOk readFn t = true) →
    (processTags readFn hasVar devId st pre).connected = st.connected ∧
    (processTags readFn hasVar devId st pre).portOpen = true ∧
    (processTags readFn hasVar devId st pre).doneTags
      = st.doneTags ++ pre.map (tagStep readFn) ∧
    (processTags readFn hasVar devId st pre).attempted
      = st.attempted ++ pre.map (fun t => t.name) := by
  induction pre with
  | nil => intro st hpo _; exact ⟨rfl, hpo, by simp [processTags], by simp [processTags]⟩
  | cons t ts ih =>
      intro st hpo hall
      obtain ⟨k, a, c, l, v, hreq, hread, hconv⟩ :=
        tagReadOk_elim readFn t (hall t (List.mem_cons_self t ts))
      have hstep := processTag_ok readFn hasVar devId st t k a c l v hreq hread hconv hpo
      have hrec := ih (processTag readFn hasVar devId st t)
        (by rw [hstep.2.1, hpo]) (fun u hu => hall u (List.mem_cons_of_mem t hu))
      rw [processTags_cons]
      refine ⟨?_, hrec.2.1, ?_, ?_⟩
      · rw [hrec.1, hstep.1]
      · rw [hrec.2.2.1, hstep.2.2.1]; simp
      · rw [hrec.2.2.2, hstep.2.2.2]; simp

theorem processTag_closed (readFn : ReadFn) (hasVar : String → Bool) (devId : String)
    (st : LoopState) (t : Tag) (hpo : st.portOpen = false) :
    processTag readFn hasVar devId st t
      = { st with connected := if (reqOf t).isSome then false else st.connected,
                  portOpen := if (reqOf t).isSome then false else st.portOpen,
                  doneTags := st.doneTags ++ [t],
                  attempted := st.attempted ++ (if (reqOf t).isSome then [t.name] else []) } := by
  unfold processTag
  rcases hreq : reqOf t with _ | ⟨k, a, c⟩
  · simp
  · rw [hpo]
    simp

theorem processTags_closed (readFn : ReadFn) (hasVar : String → Bool) (devId : String)
    (ts : List Tag) :
    ∀ st : LoopState, st.portOpen = false → st.connected = false →
    (processTags readFn hasVar devId st ts).connected = false ∧
    (processTags readFn hasVar devId st ts).portOpen = false ∧
    (processTags readFn hasVar devId st ts).doneTags = st.doneTags ++ ts ∧
    (processTags readFn hasVar devId st ts).attempted
      = st.attempted ++ (ts.filter (fun t => (reqOf t).isSome)).map (fun t => t.name) := by
  induction ts with
  | nil => intro st h1 h2; exact ⟨h2, h1, by simp [processTags], by simp [processTags]⟩
  | cons t ts2 ih =>
      intro st h1 h2
      rw [processTags_cons, processTag_closed readFn hasVar devId st t h1]
      have hrec := ih
        { st with connected := if (reqOf t).isSome then false else st.connected,
                  portOpen := if (reqOf t).isSome then false else st.portOpen,
                  doneTags := st.doneTags ++ [t],
                  attempted := st.attempted ++ (if (reqOf t).isSome then [t.name] else []) }
        (by cases h : (reqOf t).isSome <;> simp [h, h1])
        (by cases h : (reqOf t).isSome <;> simp [h, h2])
      refine ⟨hrec.1, hrec.2.1, ?_, ?_⟩
      · rw [hrec.2.2.1]; simp
      · rw [hrec.2.2.2]
        cases h : (reqOf t).isSome <;> simp [h, List.filter_cons]

theorem processTag_fail (readFn : ReadFn) (hasVar : String → Bool) (devId : String)
    (st : LoopState) (t : Tag) (k : String) (a c : Nat)
    (hreq : reqOf t = some (k, a, c)) (hfail : readFn k a c = .error ())
    (hpo : st.portOpen = true) :
    processTag readFn hasVar devId st t
      = { st with connected := false, portOpen := false,
                  doneTags := st.doneTags ++ [t],
                  attempted := st.attempted ++ [t.name] } := by
  unfold processTag
  rw [hreq, hpo]
  simp [hfail]

theorem readDeviceData_run (connectOk : Bool) (readFn : ReadFn) (hasVar : String → Bool)
    (device : Device) (hconn : device.connected = true) :
    readDeviceData true true connectOk readFn hasVar device
      = ⟨{ device with
            connected := (processTags readFn hasVar device.id
              ⟨true, true, [], [], []⟩ device.tags).connected,
            tags := (processTags readFn hasVar device.id
              ⟨true, true, [], [], []⟩ device.tags).doneTags },
          (processTags readFn hasVar device.id ⟨true, true, [], [], []⟩ device.tags).portOpen,
          (processTags readFn hasVar device.id ⟨true, true, [], [], []⟩ device.tags).attempted,
          (processTags readFn hasVar device.id ⟨true, true, [], [], []⟩ device.tags).events⟩ := by
  unfold readDeviceData
  simp [hconn]

/-- C2 (corrected): when the read of tag N fails mid-cycle, the device is
marked disconnected and the client is closed — but the `for` loop is NOT
aborted: the `catch` sits inside the loop body, so the reads of ALL
remaining tags are still attempted in the same cycle.  Each such attempt
hits the now-closed client and rejects, so the OBSERVABLE tag state is as
the claim said: tags before N keep their already-updated values, tag N and
every tag after it keep their pre-cycle `currentValue`, and the device
ends the cycle disconnected — only "the remaining reads are not attempted
(the cycle aborts)" is false. -/
theorem read_failure_continues_loop (connectOk : Bool) (readFn : ReadFn)
    (hasVar : String → Bool) (device : Device) (pre post : List Tag) (tN : Tag)
    (k : String) (a c : Nat)
    (hconn : device.connected = true)
    (htags : device.tags = pre ++ tN :: post)
    (hpre : ∀ t ∈ pre, tagReadOk readFn t = true)
    (hreq : reqOf tN = some (k, a, c))
    (hfail : readFn k a c = .error ())
    (hpost : ∀ t ∈ post, (reqOf t).isSome = true) :
    (readDeviceData true true connectOk readFn hasVar device).device.connected = false ∧
    (readDeviceData true true connectOk readFn hasVar device).device.tags
      = pre.map (tagStep readFn) ++ tN :: post ∧
    (readDeviceData true true connectOk readFn hasVar device).attempted
      = pre.map (fun t => t.name) ++ tN.name :: post.map (fun t => t.name) := by
  rw [readDeviceData_run connectOk readFn hasVar device hconn, htags]
  dsimp only
  rw [processTags_append, processTags_cons]
  have h1 := processTags_ok readFn hasVar device.id pre ⟨true, true, [], [], []⟩ rfl hpre
  have h2 := processTag_fail readFn hasVar device.id
    (processTags readFn hasVar device.id ⟨true, true, [], [], []⟩ pre) tN k a c
    hreq hfail h1.2.1
  rw [h2]
  have h3 := processTags_closed readFn hasVar device.id post
    { processTags readFn hasVar device.id ⟨true, true, [], [], []⟩ pre with
        connected := false, portOpen := false,
        doneTags := (processTags readFn hasVar device.id
          ⟨true, true, [], [], []⟩ pre).doneTags ++ [tN],
        attempted := (processTags readFn hasVar device.id
          ⟨true, true, [], [], []⟩ pre).attempted ++ [tN.name] }
    rfl rfl
  refine ⟨h3.1, ?_, ?_⟩
  · rw [h3.2.2.1]
    dsimp only
    rw [h1.2.2.1]
    simp
  · rw [h3.2.2.2]
    dsimp only
    rw [h1.2.2.2, filter_self_of_all _ post hpost]
    simp

/-- C2 counterexample device: two holding tags; the transport fails at the
first tag's address and would succeed at the second's. -/
def devC2 : Device :=
  ⟨"d2", "dev2", "tcp", true,
   [⟨"t1", "holding", 0, "uint16", .undef⟩, ⟨"t2", "holding", 1, "uint16", .undef⟩]⟩

/-- C2 counterexample transport: address 0 rejects, every other read
succeeds. -/
def readFnC2 : ReadFn := fun _ a _ => if a = 0 then .error () else .ok [.int 5]

/-- C2 counterexample: after the read of tag `t1` fails, the read of `t2`
IS still attempted in the same cycle (`attempted = ["t1", "t2"]`),
contradicting "the reads of all tags after the N-th are not attempted (the
cycle aborts)".  The cycle still ends disconnected with all tag values
unchanged. -/
theorem read_failure_abort_counterexample :
    (readDeviceData true true true readFnC2 (fun _ => true) devC2).attempted = ["t1", "t2"] ∧
    "t2" ∈ (readDeviceData true true true readFnC2 (fun _ => true) devC2).attempted ∧
    (readDeviceData true true true readFnC2 (fun _ => true) devC2).device.connected = false ∧
    (readDeviceData true true true readFnC2 (fun _ => true) devC2).device.tags = devC2.tags := by
  exact ⟨by decide, by decide, by decide, by decide⟩

/-- C2 witness device: three holding tags, the middle one failing. -/
def devC2w : Device :=
  ⟨"d3", "dev3", "tcp", true,
   [⟨"u1", "holding", 1, "uint16", .undef⟩, ⟨"u2", "holding", 2, "uint16", .undef⟩,
    ⟨"u3", "holding", 3, "uint16", .undef⟩]⟩

/-- C2 witness transport: address 2 rejects, every other read succeeds. -/
def readFnC2w : ReadFn := fun _ a _ => if a = 2 then .error () else .ok [.int 7]

/-- C2 witness: the theorem applied to a concrete three-tag cycle whose
middle read fails. -/
theorem read_failure_continues_loop_witness :
    (readDeviceData true true true readFnC2w (fun _ => true) devC2w).device.connected = false ∧
    (readDeviceData true true true readFnC2w (fun _ => true) devC2w).device.tags
      = ([⟨"u1", "holding", 1, "uint16", .undef⟩] : List Tag).map (tagStep readFnC2w)
        ++ (⟨"u2", "holding", 2, "uint16", .undef⟩ : Tag)
          :: [⟨"u3", "holding", 3, "uint16", .undef⟩] ∧
    (readDeviceData true true true readFnC2w (fun _ => true) devC2w).attempted
      = ([⟨"u1", "holding", 1, "uint16", .undef⟩] : List Tag).map (fun t => t.name)
        ++ (⟨"u2", "holding", 2, "uint16", .undef⟩ : Tag).name
          :: ([⟨"u3", "holding", 3, "uint16", .undef⟩] : List Tag).map (fun t => t.name) :=
  read_failure_continues_loop true readFnC2w (fun _ => true) devC2w
    [⟨"u1", "holding", 1, "uint16", .undef⟩] [⟨"u3", "holding", 3, "uint16", .undef⟩]
    ⟨"u2", "holding", 2, "uint16", .undef⟩ "holding" 2 1
    rfl rfl (by decide) rfl rfl (by decide)

theorem readDeviceData_no_client (portOpen connectOk : Bool) (readFn : ReadFn)
    (hasVar : String → Bool) (device : Device) :
    readDeviceData false portOpen connectOk readFn hasVar device
      = ⟨device, portOpen, [], []⟩ := rfl

theorem map_ite_id (l : List Device) (x : String) (y : Device)
    (h : ∀ d ∈ l, d.id ≠ x) :
    l.map (fun d => if d.id = x then y else d) = l := by
  induction l with
  | nil => rfl
  | cons e es ih =>
      rw [List.map_cons, if_neg (h e (List.mem_cons_self e es)),
          ih (fun d hd => h d (List.mem_cons_of_mem e hd))]

theorem not_contains_filter_ne (l : List String) (x : String) :
    (l.filter (fun y => y ≠ x)).contains x = false := by
  induction l with
  | nil => rfl
  | cons e es ih =>
      rw [List.filter_cons]
      by_cases he : e = x
      · rw [if_neg (by simp [he])]
        exact ih
      · rw [if_pos (by simp [he]), List.contains_cons, ih]
        simp [beq_iff_eq]
        exact fun h => he h.symm

theorem filter_ne_of_not_contains (l : List String) (x : String)
    (h : l.contains x = false) : l.filter (fun y => y ≠ x) = l := by
  induction l with
  | nil => rfl
  | cons e es ih =>
      rw [List.contains_cons, Bool.or_eq_false_iff] at h
      obtain ⟨h1, h2⟩ := h
      have he : e ≠ x := by
        intro hh
        rw [hh] at h1
        simp at h1
      rw [List.filter_cons, if_pos (by simp [he]), ih h2]

theorem spliceFirst_not_mem (l : List Device) (x : String)
    (h : (l.filter (fun d => d.id = x)).length ≤ 1) :
    ∀ d ∈ spliceFirst l x, d.id ≠ x := by
  induction l with
  | nil => intro d hd; cases hd
  | cons e es ih =>
      intro d hd
      unfold spliceFirst at hd
      by_cases he : e.id = x
      · rw [if_pos he] at hd
        have hfe : List.filter (fun d => decide (d.id = x)) (e :: es)
            = e :: List.filter (fun d => decide (d.id = x)) es := by
          rw [List.filter_cons, if_pos (by simp [he])]
        rw [hfe] at h
        simp only [List.length_cons] at h
        have hlen : (es.filter (fun d => decide (d.id = x))).length = 0 := by omega
        intro hdx
        have hmem : d ∈ es.filter (fun d => decide (d.id = x)) :=
          List.mem_filter.mpr ⟨hd, by simp [hdx]⟩
        rw [List.length_eq_zero] at hlen
        rw [hlen] at hmem
        cases hmem
      · rw [if_neg he] at hd
        rcases List.mem_cons.mp hd with h1 | h2
        · rw [h1]; exact he
        · have hfe : List.filter (fun d => decide (d.id = x)) (e :: es)
              = List.filter (fun d => decide (d.id = x)) es := by
            rw [List.filter_cons, if_neg (by simp [he])]
          rw [hfe] at h
          exact ih h d h2

theorem tick_removed (connectOk : Bool) (readFn : ReadFn) (s : SysState) (dev : Device)
    (hc : s.clients.contains dev.id = false)
    (hp : s.openPorts.contains dev.id = false)
    (hd : ∀ d ∈ s.devices, d.id ≠ dev.id) :
    tick connectOk readFn s dev = (s, dev, []) := by
  unfold tick
  rw [hc]
  show ({ s with
      devices := s.devices.map (fun d => if d.id = dev.id then dev else d),
      openPorts := if s.openPorts.contains dev.id then insertOnce s.openPorts dev.id
                   else s.openPorts.filter (fun y => y ≠ dev.id) }, dev, ([] : List Event))
    = (s, dev, [])
  rw [hp, if_neg (by simp), filter_ne_of_not_contains s.openPorts dev.id hp,
      map_ite_id s.devices dev.id dev hd]

theorem ticksFor_removed (connectOk : Bool) (readFn : ReadFn) (s : SysState) (dev : Device)
    (hc : s.clients.contains dev.id = false)
    (hp : s.openPorts.contains dev.id = false)
    (hd : ∀ d ∈ s.devices, d.id ≠ dev.id) :
    ∀ n : Nat, ticksFor connectOk readFn n s dev = (s, dev, []) := by
  intro n
  induction n with
  | zero => rfl
  | succ m ih =>
      unfold ticksFor
      rw [tick_removed connectOk readFn s dev hc hp hd]
      dsimp only
      rw [ih]
      rfl

/-- C4 (corrected): a successful remove of a registered device issues
exactly one retraction notification and drops the modbus client — but the
device's `setInterval` timer is NEVER cancelled (`intervals` is unchanged;
the source keeps no timer handle and never calls `clearInterval`), so poll
ticks keep firing for the removed device.  Each such tick returns
immediately (`readDeviceData` finds no client), so no tag-value update,
state change or notification for that device id is ever produced
afterwards — that part of the claim holds. -/
theorem removeDevice_one_retraction_timer_survives (s : SysState) (id : String)
    (hex : s.devices.any (fun d => d.id = id) = true)
    (hvar : s.opcuaDevs.contains id = true)
    (huniq : (s.devices.filter (fun d => d.id = id)).length ≤ 1) :
    ∃ s' : SysState,
      removeDevice s id = .ok (s', [Event.deviceRemoved id]) ∧
      s'.intervals = s.intervals ∧
      s'.clients.contains id = false ∧
      ∀ (dev : Device) (connectOk : Bool) (readFn : ReadFn) (n : Nat), dev.id = id →
        ticksFor connectOk readFn n s' dev = (s', dev, []) := by
  refine ⟨⟨spliceFirst s.devices id, s.clients.filter (fun y => y ≠ id),
      s.openPorts.filter (fun y => y ≠ id), s.opcuaDevs.filter (fun y => y ≠ id),
      s.intervals⟩, ?_, rfl, not_contains_filter_ne s.clients id, ?_⟩
  · unfold removeDevice
    rw [hex, hvar]
    rfl
  · intro dev connectOk readFn n hdev
    apply ticksFor_removed
    · rw [hdev]; exact not_contains_filter_ne s.clients id
    · rw [hdev]; exact not_contains_filter_ne s.openPorts id
    · intro d hdmem
      rw [hdev]
      exact spliceFirst_not_mem s.devices id huniq d hdmem

/-- C4 counterexample registry: one fully registered, polling device with
id `"1"`. -/
def regC4 : SysState :=
  ⟨[⟨"1", "n", "tcp", true, [⟨"t", "holding", 0, "uint16", .undef⟩]⟩],
   ["1"], ["1"], ["1"], ["1"]⟩

/-- C4 counterexample: removing device `"1"` succeeds and issues its
retraction, yet the resulting state still holds an active interval timer
for `"1"` — the poll tick keeps firing for the removed device (the source
never calls `clearInterval`), contradicting "no further poll ticks execute
for it". -/
theorem remove_leaves_timer_counterexample :
    removeDevice regC4 "1"
      = .ok (⟨[], [], [], [], ["1"]⟩, [Event.deviceRemoved "1"]) ∧
    (match removeDevice regC4 "1" with
     | .ok p => p.1.intervals
     | .error _ => []) = ["1"] := by
  exact ⟨by decide, by decide⟩

/-- C4 witness: the theorem applied to the concrete registry `regC4`. -/
theorem removeDevice_one_retraction_timer_survives_witness :
    ∃ s' : SysState,
      removeDevice regC4 "1" = .ok (s', [Event.deviceRemoved "1"]) ∧
      s'.intervals = regC4.intervals ∧
      s'.clients.contains "1" = false ∧
      ∀ (dev : Device) (connectOk : Bool) (readFn : ReadFn) (n : Nat), dev.id = "1" →
        ticksFor connectOk readFn n s' dev = (s', dev, []) :=
  removeDevice_one_retraction_timer_survives regC4 "1" (by decide) (by decide) (by decide)
